import Mathlib

/-!
Verification of the whatnext task CRUD layer, a shallow embedding of
src/whatnext/data_model.py and src/whatnext/tasks.py.

Modelling conventions:
* Timestamps are modelled as naturals, the importance number as an integer;
  neither claim depends on their arithmetic.
* A pydantic optional field left unset is modelled as an Option holding none.
  Serializing a record with the exclude flags of the source keeps exactly the
  required fields plus the optional fields that hold a value, so a node
  attribute mapping is modelled as a record of the same shape (none standing
  for an absent key) together with the kind marker written at creation.
* A raised Python exception is modelled as the error case of Except; the
  store is returned unchanged in that case by the state helpers below.
* The underlying graph container and the sort routine are the external
  collaborators of the layer: the node store is an association list from node
  id to its attribute mapping offering lookup, wholesale replacement and a
  node count, and the sort routine is passed to the listing pipeline as a
  plain function argument.
* The iteration order of a Python set is unspecified; the embedding fixes the
  order of first appearance, which no proved property depends on.
* The entity constructors follow the calling convention of the model
  library: the generated constructor is keyword-only, so handing it a
  mapping positionally raises a type error, and a required field handed
  None fails validation; both failure sites are modelled where they occur.
-/

namespace Whatnext

/-- Python exceptions that the operations under study can raise. -/
inductive PyErr where
  | keyError
  | typeError
  | indexError
  | validationError
  deriving DecidableEq

/-- Work interval record (data_model.TimeLog). The note field is declared as
a required string by the entity, so a record can only exist with a note; the
completion operation nevertheless passes None there, which the validation
rejects — that failure is modelled at the construction site inside
complete_task. -/
structure TimeLog where
  task_id : Int
  user_id : String
  start_time : Option Nat
  end_time : Option Nat
  note : String
  deriving DecidableEq

/-- Task record (data_model.Task). -/
structure Task where
  user_id : String
  task_id : Int
  name : String
  importance : Int
  completed : Option Bool
  due : Option Nat
  tags : Option (List String)
  urls : Option (List String)
  users : Option (List String)
  notes : Option (List String)
  time_logs : Option (List TimeLog)
  deriving DecidableEq

/-- Attribute mapping stored on one graph node. A field holding none models
an absent key; kind records the marker written by create_task. -/
structure NodeAttrs where
  kind : Option String
  user_id : String
  task_id : Int
  name : String
  importance : Int
  completed : Option Bool
  due : Option Nat
  tags : Option (List String)
  urls : Option (List String)
  users : Option (List String)
  notes : Option (List String)
  time_logs : Option (List TimeLog)
  deriving DecidableEq

/-- The node store of the directed graph, as an association list from node id
to its attribute mapping. Edges play no part in the operations modelled. -/
structure Graph where
  nodes : List (Int × NodeAttrs)
  deriving DecidableEq

/-- Lookup of the attribute mapping of a node. -/
def Graph.find (g : Graph) (id : Int) : Option NodeAttrs :=
  (g.nodes.find? (fun p => p.1 == id)).map (fun p => p.2)

/-- Number of nodes in the store, used for id auto-assignment. -/
def Graph.nodeCount (g : Graph) : Nat := g.nodes.length

/-- Wholesale replacement of a node's attribute mapping, creating the node
when it is absent. -/
def Graph.setNode (g : Graph) (id : Int) (a : NodeAttrs) : Graph :=
  if (g.nodes.find? (fun p => p.1 == id)).isSome then
    Graph.mk (g.nodes.map (fun p => if p.1 == id then (id, a) else p))
  else Graph.mk (g.nodes ++ [(id, a)])

/-- Reading a Task out of a node attribute mapping (the construction done by
get_task_from_graph and by the materialization step of list_tasks). -/
def NodeAttrs.toTask (a : NodeAttrs) : Task :=
  Task.mk a.user_id a.task_id a.name a.importance a.completed a.due a.tags
    a.urls a.users a.notes a.time_logs

/-- Serializing the explicitly set fields of a task, together with an
optional kind marker, into a node attribute mapping. -/
def Task.toNodeAttrs (t : Task) (kind : Option String) : NodeAttrs :=
  NodeAttrs.mk kind t.user_id t.task_id t.name t.importance t.completed t.due
    t.tags t.urls t.users t.notes t.time_logs

/-- Overwrite an attribute exactly when the serialized update carries the
corresponding key, which for an optional field means it holds a value. -/
def setOr {α : Type} (upd old : Option α) : Option α :=
  match upd with
  | some v => some v
  | none => old

/-- Copying every explicitly set field of a task except name, and without
touching kind, onto an existing attribute mapping: the loop over the
serialized fields in the sentinel branch of create_task, after the name key
has been deleted. The required fields are always present in the serialized
mapping, the optional ones only when they hold a value. -/
def NodeAttrs.mergeTask (a : NodeAttrs) (t : Task) : NodeAttrs :=
  NodeAttrs.mk a.kind t.user_id t.task_id a.name t.importance
    (setOr t.completed a.completed) (setOr t.due a.due) (setOr t.tags a.tags)
    (setOr t.urls a.urls) (setOr t.users a.users) (setOr t.notes a.notes)
    (setOr t.time_logs a.time_logs)

/-- The add_node call of create_task, with the kind marker and the serialized
fields: a fresh node receives exactly those attributes, while an existing
node has them merged into its attribute mapping (name and kind included),
unmentioned attributes surviving. -/
def Graph.addTaskNode (g : Graph) (t : Task) : Graph :=
  match g.find t.task_id with
  | some a =>
    g.setNode t.task_id { a.mergeTask t with name := t.name, kind := some "task" }
  | none => g.setNode t.task_id (t.toNodeAttrs (some "task"))

/-- get_task_from_graph: the node lookup raises a key error when the id is
absent from the store. When the node is present, its attribute mapping is
handed positionally to the keyword-only constructor of the Task entity,
which raises a type error, so no present-node read ever yields a task; the
keyword form used by the materialization step of list_tasks is the one that
constructs. Every operation that loads a task through this function
therefore raises on present nodes as well; their remaining branches mirror
the source past this load. -/
def get_task_from_graph (task_id : Int) (g : Graph) : Except PyErr Task :=
  match g.find task_id with
  | none => Except.error PyErr.keyError
  | some _ => Except.error PyErr.typeError

/-- update_task_in_graph: serializes the task and replaces the node's
attribute mapping wholesale. The time_logs key is always written, defaulting
to an empty list, and no kind marker survives the rewrite. -/
def update_task_in_graph (t : Task) (g : Graph) : Graph :=
  g.setNode t.task_id
    { t.toNodeAttrs none with time_logs := some (t.time_logs.getD []) }

/-- create_task: a negative id is replaced by the current node count and the
record is written as a node of kind task; a non-negative id with the sentinel
name has its fields other than the name patched onto the existing node,
whose attribute mapping is looked up first and raises a key error when the
node is absent; any other non-negative id is written as a node of kind
task. The assigned or supplied id is returned. -/
def create_task (g : Graph) (t : Task) : Except PyErr (Int × Graph) :=
  if t.task_id < 0 then
    let t2 := { t with task_id := (g.nodeCount : Int) }
    Except.ok (t2.task_id, g.addTaskNode t2)
  else if t.name = "_existing_node" then
    match g.find t.task_id with
    | none => Except.error PyErr.keyError
    | some a => Except.ok (t.task_id, g.setNode t.task_id (a.mergeTask t))
  else
    Except.ok (t.task_id, g.addTaskNode t)

/-- update_task: when the id is absent the pair of the untouched store and a
null result is returned; otherwise each argument that holds a value (and, for
the two strings, is non-empty) overwrites the corresponding field before the
record is written back wholesale. -/
def update_task (g : Graph) (task_id : Int) (user_id : Option String)
    (name : Option String) (completed : Option Bool) (importance : Option Int)
    (due : Option Nat) : Graph × Option Task :=
  match g.find task_id with
  | none => (g, none)
  | some a =>
    let t := a.toTask
    let t := match user_id with
      | some s => if s = "" then t else { t with user_id := s }
      | none => t
    let t := match name with
      | some s => if s = "" then t else { t with name := s }
      | none => t
    let t := match completed with
      | some b => { t with completed := some b }
      | none => t
    let t := match importance with
      | some v => { t with importance := v }
      | none => t
    let t := match due with
      | some d => { t with due := some d }
      | none => t
    (update_task_in_graph t g, some t)

/-- complete_task: the end time defaults to the current time. The task is
loaded through get_task_from_graph, which raises a key error for an absent
id and the positional-construction type error for a present one, so the
null-check that follows the load in the source is unreachable and the
branches below it are never entered. They mirror the source nonetheless: a
task whose completed flag is truthy would be returned with no write;
otherwise the flag is set, taking the length of an absent time_logs field
raises a type error, an empty log list leads to the construction of a fresh
entry whose required note field is handed None and therefore fails
validation, and with a non-empty log list the last entry receives the end
time exactly when it has none yet before the record is written back. -/
def complete_task (g : Graph) (task_id : Int) (end_time : Option Nat)
    (now : Nat) : Except PyErr (Graph × Task) :=
  let endTime := end_time.getD now
  match get_task_from_graph task_id g with
  | Except.error e => Except.error e
  | Except.ok t =>
    if t.completed.getD false then Except.ok (g, t)
    else
      let t1 := { t with completed := some true }
      match t1.time_logs with
      | none => Except.error PyErr.typeError
      | some logs =>
        match logs.getLast? with
        | none => Except.error PyErr.validationError
        | some lastLog =>
          if lastLog.end_time = none then
            let closed := logs.dropLast ++ [{ lastLog with end_time := some endTime }]
            let t2 := { t1 with time_logs := some closed }
            Except.ok (update_task_in_graph t2 g, t2)
          else
            Except.ok (update_task_in_graph t1 g, t1)

/-- Materializing a Python set from a stored sequence: duplicates collapse,
first appearance fixes the modelled order. -/
def pySet (l : List String) : List String := l.eraseDups

/-- add_tag: iterating an absent tags field raises a type error; otherwise
the value is added to the set and the deduplicated sequence written back. -/
def add_tag (g : Graph) (task_id : Int) (tag : String) : Except PyErr Graph :=
  match get_task_from_graph task_id g with
  | Except.error e => Except.error e
  | Except.ok t =>
    match t.tags with
    | none => Except.error PyErr.typeError
    | some l =>
      let s := pySet l
      let s2 := if tag ∈ s then s else s ++ [tag]
      Except.ok (update_task_in_graph { t with tags := some s2 } g)

/-- remove_tag: iterating an absent tags field raises a type error; removing
a value that is not a member raises a key error before any write; otherwise
the member is removed and the deduplicated sequence written back. -/
def remove_tag (g : Graph) (task_id : Int) (tag : String) : Except PyErr Graph :=
  match get_task_from_graph task_id g with
  | Except.error e => Except.error e
  | Except.ok t =>
    match t.tags with
    | none => Except.error PyErr.typeError
    | some l =>
      let s := pySet l
      if tag ∈ s then
        Except.ok (update_task_in_graph { t with tags := some (s.erase tag) } g)
      else Except.error PyErr.keyError

/-- add_url, the urls analogue of add_tag. -/
def add_url (g : Graph) (task_id : Int) (url : String) : Except PyErr Graph :=
  match get_task_from_graph task_id g with
  | Except.error e => Except.error e
  | Except.ok t =>
    match t.urls with
    | none => Except.error PyErr.typeError
    | some l =>
      let s := pySet l
      let s2 := if url ∈ s then s else s ++ [url]
      Except.ok (update_task_in_graph { t with urls := some s2 } g)

/-- remove_url, the urls analogue of remove_tag. -/
def remove_url (g : Graph) (task_id : Int) (url : String) : Except PyErr Graph :=
  match get_task_from_graph task_id g with
  | Except.error e => Except.error e
  | Except.ok t =>
    match t.urls with
    | none => Except.error PyErr.typeError
    | some l =>
      let s := pySet l
      if url ∈ s then
        Except.ok (update_task_in_graph { t with urls := some (s.erase url) } g)
      else Except.error PyErr.keyError

/-- add_user, the users analogue of add_tag. -/
def add_user (g : Graph) (task_id : Int) (user : String) : Except PyErr Graph :=
  match get_task_from_graph task_id g with
  | Except.error e => Except.error e
  | Except.ok t =>
    match t.users with
    | none => Except.error PyErr.typeError
    | some l =>
      let s := pySet l
      let s2 := if user ∈ s then s else s ++ [user]
      Except.ok (update_task_in_graph { t with users := some s2 } g)

/-- remove_user: iterating an absent users field raises a type error. When
the field is present, the source passes the materialized set itself, not the
user argument, to the set removal primitive; a set is unhashable, so the
call raises a type error whatever the membership situation, and nothing is
ever written. -/
def remove_user (g : Graph) (task_id : Int) (user : String) :
    Except PyErr Graph :=
  match get_task_from_graph task_id g with
  | Except.error e => Except.error e
  | Except.ok t =>
    match t.users with
    | none => Except.error PyErr.typeError
    | some _ => Except.error PyErr.typeError

/-- add_note: an absent notes field is initialized to an empty sequence, the
note is appended, and the record written back. -/
def add_note (g : Graph) (task_id : Int) (note : String) : Except PyErr Graph :=
  match get_task_from_graph task_id g with
  | Except.error e => Except.error e
  | Except.ok t =>
    Except.ok (update_task_in_graph
      { t with notes := some ((t.notes.getD []) ++ [note]) } g)

/-- update_note: taking the length of an absent notes field raises a type
error. The index is only checked against the upper bound; within it, Python
indexing applies, so a negative index at least minus the length addresses
from the end and a smaller one raises an index error. The record is written
back even when the index check fails. -/
def update_note (g : Graph) (task_id : Int) (note_id : Int) (note : String) :
    Except PyErr Graph :=
  match get_task_from_graph task_id g with
  | Except.error e => Except.error e
  | Except.ok t =>
    match t.notes with
    | none => Except.error PyErr.typeError
    | some notes =>
      if note_id < (notes.length : Int) then
        if 0 ≤ note_id then
          Except.ok (update_task_in_graph
            { t with notes := some (notes.set note_id.toNat note) } g)
        else if -(notes.length : Int) ≤ note_id then
          let fromEnd := notes.set ((notes.length : Int) + note_id).toNat note
          Except.ok (update_task_in_graph { t with notes := some fromEnd } g)
        else Except.error PyErr.indexError
      else Except.ok (update_task_in_graph t g)

/-- remove_note: taking the length of an absent notes field raises a type
error; the note is popped and the record written back only when the index
lies within both bounds, nothing being written otherwise. -/
def remove_note (g : Graph) (task_id : Int) (note_id : Int) :
    Except PyErr Graph :=
  match get_task_from_graph task_id g with
  | Except.error e => Except.error e
  | Except.ok t =>
    match t.notes with
    | none => Except.error PyErr.typeError
    | some notes =>
      if 0 ≤ note_id ∧ note_id < (notes.length : Int) then
        Except.ok (update_task_in_graph
          { t with notes := some (notes.eraseIdx note_id.toNat) } g)
      else Except.ok g

/-- One membership test of the list comprehensions of list_tasks: the node
attributes are looked up (raising a key error for an absent node) and the
stored field, defaulting to an empty sequence, is intersected with the
requested values. -/
def passFilter (g : Graph) (proj : NodeAttrs → Option (List String))
    (req : List String) (id : Int) : Except PyErr Bool :=
  match g.find id with
  | none => Except.error PyErr.keyError
  | some a => Except.ok (((proj a).getD []).any (fun x => req.contains x))

/-- A Python list comprehension with a fallible membership test: elements are
tested left to right and the first raised error propagates. -/
def pyFilter (p : Int → Except PyErr Bool) : List Int → Except PyErr (List Int)
  | [] => Except.ok []
  | id :: rest =>
    match p id with
    | Except.error e => Except.error e
    | Except.ok b =>
      match pyFilter p rest with
      | Except.error e => Except.error e
      | Except.ok r => Except.ok (if b then id :: r else r)

/-- One intersection dimension of list_tasks: the filter runs only when the
requirement is present and non-empty. -/
def filterDim (g : Graph) (proj : NodeAttrs → Option (List String))
    (req : Option (List String)) (ids : List Int) : Except PyErr (List Int) :=
  match req with
  | some vs => if vs = [] then Except.ok ids else pyFilter (passFilter g proj vs) ids
  | none => Except.ok ids

/-- The search step of list_tasks. When the search string is present and
non-empty, the source compiles it and then invokes the compiled pattern
object itself on each candidate name; a pattern object is not callable, so
the first candidate raises a type error, while an empty candidate list makes
the comprehension trivially empty with no call at all. The compilation of
the pattern is modelled as succeeding. -/
def searchStep (search : Option String) (ids : List Int) :
    Except PyErr (List Int) :=
  match search with
  | none => Except.ok ids
  | some s =>
    if s = "" then Except.ok ids
    else
      match ids with
      | [] => Except.ok []
      | _ :: _ => Except.error PyErr.typeError

/-- Candidate filtering of list_tasks: the external sort collaborator
produces the ordered, length-capped candidate ids, then the search step and
the tag, url and user intersection filters run in sequence. -/
def list_task_ids (sortFn : Graph → String → Nat → Bool → Bool → List Int)
    (g : Graph) (sort_by : String) (limit : Nat) (ascending : Bool)
    (only_leaves : Bool) (search : Option String) (tags : Option (List String))
    (urls : Option (List String)) (users : Option (List String)) :
    Except PyErr (List Int) := do
  let ids1 ← searchStep search (sortFn g sort_by limit ascending only_leaves)
  let ids2 ← filterDim g (fun a => a.tags) tags ids1
  let ids3 ← filterDim g (fun a => a.urls) urls ids2
  filterDim g (fun a => a.users) users ids3

/-- list_tasks: the filtered candidate ids are materialized into Task
records in order, an absent node raising a key error. -/
def list_tasks (sortFn : Graph → String → Nat → Bool → Bool → List Int)
    (g : Graph) (sort_by : String) (limit : Nat) (ascending : Bool)
    (only_leaves : Bool) (search : Option String) (tags : Option (List String))
    (urls : Option (List String)) (users : Option (List String)) :
    Except PyErr (List Task) := do
  let ids ← list_task_ids sortFn g sort_by limit ascending only_leaves search
    tags urls users
  ids.mapM (fun id =>
    match g.find id with
    | none => Except.error PyErr.keyError
    | some a => Except.ok a.toTask)

/-- Store state after a call to complete_task: a raised exception leaves the
store as it was, since every error precedes the single write. -/
def completeState (g : Graph) (task_id : Int) (end_time : Option Nat)
    (now : Nat) : Graph :=
  match complete_task g task_id end_time now with
  | Except.ok p => p.1
  | Except.error _ => g

/-- Store state after an operation returning only the store: a raised
exception leaves the store as it was. -/
def opState (g : Graph) (r : Except PyErr Graph) : Graph :=
  match r with
  | Except.ok g2 => g2
  | Except.error _ => g

/-- Id returned by create_task, when no exception is raised. -/
def createId (g : Graph) (t : Task) : Option Int :=
  match create_task g t with
  | Except.ok p => some p.1
  | Except.error _ => none

/-- Store state after create_task: a raised exception leaves the store. -/
def createState (g : Graph) (t : Task) : Graph :=
  match create_task g t with
  | Except.ok p => p.2
  | Except.error _ => g

/-- Attribute mapping of the node designated by the id that create_task
returned, after the call. -/
def nodeAfterCreate (g : Graph) (t : Task) : Option NodeAttrs :=
  match create_task g t with
  | Except.ok p => p.2.find p.1
  | Except.error _ => none

/-- Task read back, through get_task_from_graph, under the id that
create_task returned. -/
def readBack (g : Graph) (t : Task) : Option Task :=
  match create_task g t with
  | Except.ok p =>
    match get_task_from_graph p.1 p.2 with
    | Except.ok tb => some tb
    | Except.error _ => none
  | Except.error _ => none

/-- A candidate passes one intersection dimension of the listing pipeline
when the requirement is absent or empty, or the stored field shares at least
one member with the requested values. -/
def passesDim (g : Graph) (proj : NodeAttrs → Option (List String))
    (req : Option (List String)) (id : Int) : Prop :=
  ∀ vs, req = some vs → vs ≠ [] →
    ∃ a, g.find id = some a ∧ ∃ x ∈ (proj a).getD [], x ∈ vs

/-! Store lemmas: reading back a node that was just written, and the frame
property for the other nodes. -/

theorem find?_overwrite (l : List (Int × NodeAttrs)) (id : Int) (a : NodeAttrs)
    (h : (l.find? (fun p => p.1 == id)).isSome = true) :
    (l.map (fun p => if p.1 == id then (id, a) else p)).find?
      (fun p => p.1 == id) = some (id, a) := by
  induction l with
  | nil => simp at h
  | cons q rest ih =>
    simp only [List.map_cons]
    cases hq : (q.1 == id) with
    | true =>
      rw [if_pos rfl]
      exact List.find?_cons_of_pos _ (by simp)
    | false =>
      rw [if_neg (by simp [hq])]
      rw [List.find?_cons_of_neg _ (by simp [hq])]
      apply ih
      rw [List.find?_cons_of_neg _ (by simp [hq])] at h
      exact h

theorem find?_append_single (l : List (Int × NodeAttrs)) (id : Int)
    (a : NodeAttrs) (h : l.find? (fun p => p.1 == id) = none) :
    (l ++ [(id, a)]).find? (fun p => p.1 == id) = some (id, a) := by
  rw [List.find?_append, h]
  simp [List.find?]

theorem Graph.find_setNode_self (g : Graph) (id : Int) (a : NodeAttrs) :
    (g.setNode id a).find id = some a := by
  unfold Graph.setNode Graph.find
  by_cases h : (g.nodes.find? (fun p => p.1 == id)).isSome = true
  · simp only [h, if_true]
    rw [find?_overwrite g.nodes id a h]
    rfl
  · simp only [h, Bool.false_eq_true, if_false]
    have hn : g.nodes.find? (fun p => p.1 == id) = none := by
      cases hf : g.nodes.find? (fun p => p.1 == id) with
      | none => rfl
      | some q => rw [hf] at h; exact absurd rfl h
    rw [find?_append_single g.nodes id a hn]
    rfl

theorem find?_overwrite_ne (l : List (Int × NodeAttrs)) (id j : Int)
    (a : NodeAttrs) (h : j ≠ id) :
    (l.map (fun p => if p.1 == id then (id, a) else p)).find?
      (fun p => p.1 == j) = l.find? (fun p => p.1 == j) := by
  induction l with
  | nil => simp
  | cons q rest ih =>
    simp only [List.map_cons]
    cases hq : (q.1 == id) with
    | true =>
      have hq' : q.1 = id := by simpa using hq
      rw [if_pos rfl]
      rw [List.find?_cons_of_neg _ (by simpa using Ne.symm h),
        List.find?_cons_of_neg _ (by rw [hq']; simpa using Ne.symm h)]
      exact ih
    | false =>
      rw [if_neg (by simp [hq])]
      cases hqj : (q.1 == j) with
      | true =>
        rw [List.find?_cons_of_pos _ (by exact hqj),
          List.find?_cons_of_pos _ (by exact hqj)]
      | false =>
        rw [List.find?_cons_of_neg _ (by simp [hqj]),
          List.find?_cons_of_neg _ (by simp [hqj])]
        exact ih

theorem Graph.find_setNode_ne (g : Graph) (id j : Int) (a : NodeAttrs)
    (h : j ≠ id) : (g.setNode id a).find j = g.find j := by
  unfold Graph.setNode Graph.find
  by_cases hs : (g.nodes.find? (fun p => p.1 == id)).isSome = true
  · simp only [hs, if_true]
    rw [find?_overwrite_ne g.nodes id j a h]
  · simp only [hs, Bool.false_eq_true, if_false]
    rw [List.find?_append]
    have hij : (id == j) = false := by simpa using Ne.symm h
    have hone : List.find? (fun p => p.1 == j) [(id, a)] = none := by
      simp [List.find?, hij]
    rw [hone]
    cases hf : g.nodes.find? (fun p => p.1 == j) with
    | some q => simp [hf]
    | none => simp [hf]

/-! Completion: the terminal-marker contract against the collapsed load. -/

/-- Concrete node attributes used by the witnesses: a record of kind task
with only the required fields set. -/
def attrs0 (uid : String) (tid : Int) (nm : String) (imp : Int) : NodeAttrs :=
  NodeAttrs.mk (some "task") uid tid nm imp none none none none none none none

/-- A store holding one already-completed task under id 7. -/
def attrsC1 : NodeAttrs := { attrs0 "u" 7 "w" 5 with completed := some true }

/-- The one-node store for the completion witness. -/
def gC1 : Graph := Graph.mk [(7, attrsC1)]

/-- C1: a stored task whose completed field is true is never returned
unchanged: the load inside complete_task raises the positional-construction
type error for every present node, so the call raises and performs no write;
completing twice still yields the same store state as completing once, but
only trivially, because no completion call ever reaches the write. -/
theorem complete_task_completed_raises (g : Graph) (id : Int)
    (a : NodeAttrs) (e1 e2 : Option Nat) (n1 n2 : Nat)
    (hfind : g.find id = some a) (hc : a.completed = some true) :
    complete_task g id e1 n1 = Except.error PyErr.typeError
    ∧ completeState g id e1 n1 = g
    ∧ completeState (completeState g id e1 n1) id e2 n2
        = completeState g id e1 n1 := by
  have h1 : complete_task g id e1 n1 = Except.error PyErr.typeError := by
    simp [complete_task, get_task_from_graph, hfind]
  have h2 : completeState g id e1 n1 = g := by
    simp [completeState, h1]
  refine ⟨h1, h2, ?_⟩
  rw [h2]
  simp [completeState, complete_task, get_task_from_graph, hfind]

/-- Witness for C1 at a concrete store holding a completed task. -/
theorem complete_task_completed_raises_witness :
    complete_task gC1 7 (some 3) 0 = Except.error PyErr.typeError
    ∧ completeState gC1 7 (some 3) 0 = gC1
    ∧ completeState (completeState gC1 7 (some 3) 0) 7 (some 9) 1
        = completeState gC1 7 (some 3) 0 :=
  complete_task_completed_raises gC1 7 attrsC1 (some 3) (some 9) 0 1 rfl rfl

/-- A stored, not yet completed record with an empty time_logs list. -/
def attrsC2 : NodeAttrs := { attrs0 "u" 0 "n" 1 with time_logs := some [] }

/-- The one-node store for the uncompleted-completion witness. -/
def gC2 : Graph := Graph.mk [(0, attrsC2)]

/-- C2: a stored task that is not yet completed is never completed either:
the load raises the positional-construction type error for every present
node, whatever the state of time_logs, so the completed flag is never set,
no log is closed or appended, and the store is unchanged. Past the load the
empty-log branch would in any case end at the validation error of the fresh
entry whose required note field is handed None. -/
theorem complete_task_uncompleted_raises (g : Graph) (id : Int)
    (a : NodeAttrs) (e : Option Nat) (now : Nat)
    (hfind : g.find id = some a) (hnc : a.completed ≠ some true) :
    complete_task g id e now = Except.error PyErr.typeError
    ∧ completeState g id e now = g := by
  have h1 : complete_task g id e now = Except.error PyErr.typeError := by
    simp [complete_task, get_task_from_graph, hfind]
  exact ⟨h1, by simp [completeState, h1]⟩

/-- Witness for C2 at a concrete store holding an uncompleted task with an
empty time_logs list. -/
theorem complete_task_uncompleted_raises_witness :
    complete_task gC2 0 (some 5) 9 = Except.error PyErr.typeError
    ∧ completeState gC2 0 (some 5) 9 = gC2 :=
  complete_task_uncompleted_raises gC2 0 attrsC2 (some 5) 9 rfl (by decide)

/-! Creation round trip. -/

/-- An explicitly set field survives the merge step of the serialized
update unchanged. -/
theorem setOr_of_isSome {α : Type} (u o : Option α) (h : u.isSome = true) :
    setOr u o = u := by
  cases u with
  | none => simp at h
  | some v => rfl

/-- Reading the node just written by the add_node call of create_task. -/
theorem addTaskNode_find (g : Graph) (t : Task) :
    (g.addTaskNode t).find t.task_id = some (match g.find t.task_id with
      | some a => { a.mergeTask t with name := t.name, kind := some "task" }
      | none => t.toNodeAttrs (some "task")) := by
  unfold Graph.addTaskNode
  cases g.find t.task_id with
  | none => exact Graph.find_setNode_self g t.task_id _
  | some a => exact Graph.find_setNode_self g t.task_id _

/-- A fresh record with a negative id and one set optional field. -/
def taskC3 : Task :=
  Task.mk "w" (-1) "write spec" 5 none none (some ["a"]) none none none none

/-- The empty store for the round-trip witness. -/
def gC3 : Graph := Graph.mk []

/-- C3: create_task returns the assigned or supplied id as described, and
the node written under it is present in the store, but the create-then-get
round trip never completes: reading the returned id back through
get_task_from_graph raises the positional-construction type error, so no
read-back task exists whose fields could be compared with the input. -/
theorem create_task_readback_raises (g : Graph) (t : Task)
    (hok : t.task_id < 0 ∨ (0 ≤ t.task_id ∧ t.name ≠ "_existing_node")) :
    createId g t = some (if t.task_id < 0 then (g.nodeCount : Int) else t.task_id)
    ∧ readBack g t = none
    ∧ get_task_from_graph (if t.task_id < 0 then (g.nodeCount : Int) else t.task_id) (createState g t) = Except.error PyErr.typeError := by
  rcases hok with hneg | ⟨hpos, hname⟩
  · have hc : create_task g t = Except.ok ((g.nodeCount : Int), g.addTaskNode { t with task_id := (g.nodeCount : Int) }) := by
      simp [create_task, hneg]
    have hf := addTaskNode_find g { t with task_id := (g.nodeCount : Int) }
    refine ⟨?_, ?_, ?_⟩
    · simp [createId, hc, hneg]
    · simp [readBack, hc, get_task_from_graph, hf]
    · simp [createState, hc, get_task_from_graph, hf, hneg]
  · have hnlt : ¬ t.task_id < 0 := not_lt.mpr hpos
    have hc : create_task g t = Except.ok (t.task_id, g.addTaskNode t) := by
      simp [create_task, hnlt, hname]
    have hf := addTaskNode_find g t
    refine ⟨?_, ?_, ?_⟩
    · simp [createId, hc, hnlt]
    · simp [readBack, hc, get_task_from_graph, hf]
    · simp [createState, hc, get_task_from_graph, hf, hnlt]

/-- Witness for C3 on the empty store: the id is assigned, the node exists,
the read back raises. -/
theorem create_task_readback_raises_witness :
    createId gC3 taskC3 = some (if taskC3.task_id < 0 then (gC3.nodeCount : Int) else taskC3.task_id)
    ∧ readBack gC3 taskC3 = none
    ∧ get_task_from_graph (if taskC3.task_id < 0 then (gC3.nodeCount : Int) else taskC3.task_id) (createState gC3 taskC3) = Except.error PyErr.typeError :=
  create_task_readback_raises gC3 taskC3 (Or.inl (by decide))

/-! Missing ids, set removal, and the sentinel patch. -/

/-- C4: for every id absent from the store, update_task returns the null
result with the store untouched, while complete_task raises the key error of
the underlying lookup instead of returning a null result, its own null check
sitting after the raising call; the store is left unchanged either way. -/
theorem missing_id_update_null_complete_raises (g : Graph) (id : Int)
    (u n : Option String) (c : Option Bool) (imp : Option Int) (d : Option Nat)
    (e : Option Nat) (now : Nat) (hfind : g.find id = none) :
    update_task g id u n c imp d = (g, none)
    ∧ complete_task g id e now = Except.error PyErr.keyError
    ∧ completeState g id e now = g := by
  refine ⟨?_, ?_, ?_⟩ <;>
    simp [update_task, complete_task, completeState, get_task_from_graph, hfind]

/-- Witness for C4 on the empty store. -/
theorem missing_id_update_null_complete_raises_witness :
    update_task (Graph.mk []) 0 none none none none none = (Graph.mk [], none)
    ∧ complete_task (Graph.mk []) 0 none 4 = Except.error PyErr.keyError
    ∧ completeState (Graph.mk []) 0 none 4 = Graph.mk [] :=
  missing_id_update_null_complete_raises (Graph.mk []) 0 none none none none
    none none 4 rfl

/-- A store whose task 0 holds the user alice. -/
def attrsC5 : NodeAttrs := { attrs0 "u" 0 "n" 1 with users := some ["alice"] }

/-- The one-node store for the user-removal claim. -/
def gC5 : Graph := Graph.mk [(0, attrsC5)]

/-- C5: removing a user that is currently a member raises a type error
instead of removing it — already at the load of the task, and past the load
the removal primitive is handed the materialized set itself rather than the
given value, which would raise as well; the store is left unchanged. -/
theorem remove_user_present_member_raises :
    attrsC5.users = some ["alice"]
    ∧ remove_user gC5 0 "alice" = Except.error PyErr.typeError
    ∧ opState gC5 (remove_user gC5 0 "alice") = gC5 :=
  ⟨rfl, rfl, rfl⟩

/-- C6: for every existing node and every task bearing exactly the sentinel
name and the node's non-negative id, create_task returns that id, leaves
every other node unchanged, keeps the node's name and kind and its
attributes not mentioned in the update, and overwrites the required fields
and every explicitly set optional field with the values passed in. -/
theorem create_task_existing_node_patch (g : Graph) (t : Task) (a : NodeAttrs)
    (j : Int) (hname : t.name = "_existing_node") (hpos : 0 ≤ t.task_id)
    (hfind : g.find t.task_id = some a) (hj : j ≠ t.task_id) :
    createId g t = some t.task_id
    ∧ (createState g t).find j = g.find j
    ∧ (nodeAfterCreate g t).map NodeAttrs.kind = some a.kind
    ∧ (nodeAfterCreate g t).map NodeAttrs.name = some a.name
    ∧ (nodeAfterCreate g t).map NodeAttrs.user_id = some t.user_id
    ∧ (nodeAfterCreate g t).map NodeAttrs.task_id = some t.task_id
    ∧ (nodeAfterCreate g t).map NodeAttrs.importance = some t.importance
    ∧ (t.completed.isSome → (nodeAfterCreate g t).map NodeAttrs.completed = some t.completed)
    ∧ (t.completed = none → (nodeAfterCreate g t).map NodeAttrs.completed = some a.completed)
    ∧ (t.due.isSome → (nodeAfterCreate g t).map NodeAttrs.due = some t.due)
    ∧ (t.due = none → (nodeAfterCreate g t).map NodeAttrs.due = some a.due)
    ∧ (t.tags.isSome → (nodeAfterCreate g t).map NodeAttrs.tags = some t.tags)
    ∧ (t.tags = none → (nodeAfterCreate g t).map NodeAttrs.tags = some a.tags)
    ∧ (t.urls.isSome → (nodeAfterCreate g t).map NodeAttrs.urls = some t.urls)
    ∧ (t.urls = none → (nodeAfterCreate g t).map NodeAttrs.urls = some a.urls)
    ∧ (t.users.isSome → (nodeAfterCreate g t).map NodeAttrs.users = some t.users)
    ∧ (t.users = none → (nodeAfterCreate g t).map NodeAttrs.users = some a.users)
    ∧ (t.notes.isSome → (nodeAfterCreate g t).map NodeAttrs.notes = some t.notes)
    ∧ (t.notes = none → (nodeAfterCreate g t).map NodeAttrs.notes = some a.notes)
    ∧ (t.time_logs.isSome → (nodeAfterCreate g t).map NodeAttrs.time_logs = some t.time_logs)
    ∧ (t.time_logs = none → (nodeAfterCreate g t).map NodeAttrs.time_logs = some a.time_logs) := by
  have hnlt : ¬ t.task_id < 0 := not_lt.mpr hpos
  have hc : create_task g t = Except.ok (t.task_id, g.setNode t.task_id (a.mergeTask t)) := by
    simp [create_task, hnlt, hname, hfind]
  have hn : nodeAfterCreate g t = some (a.mergeTask t) := by
    simp [nodeAfterCreate, hc, Graph.find_setNode_self]
  refine ⟨by simp [createId, hc], ?_, ?_, ?_, ?_, ?_, ?_, ?_, ?_, ?_, ?_, ?_,
    ?_, ?_, ?_, ?_, ?_, ?_, ?_, ?_, ?_⟩
  · simp only [createState, hc]
    exact Graph.find_setNode_ne g t.task_id j _ hj
  · rw [hn]; rfl
  · rw [hn]; rfl
  · rw [hn]; rfl
  · rw [hn]; rfl
  · rw [hn]; rfl
  · intro h; rw [hn]; simp [NodeAttrs.mergeTask, setOr_of_isSome _ _ h]
  · intro h; rw [hn]; simp [NodeAttrs.mergeTask, setOr, h]
  · intro h; rw [hn]; simp [NodeAttrs.mergeTask, setOr_of_isSome _ _ h]
  · intro h; rw [hn]; simp [NodeAttrs.mergeTask, setOr, h]
  · intro h; rw [hn]; simp [NodeAttrs.mergeTask, setOr_of_isSome _ _ h]
  · intro h; rw [hn]; simp [NodeAttrs.mergeTask, setOr, h]
  · intro h; rw [hn]; simp [NodeAttrs.mergeTask, setOr_of_isSome _ _ h]
  · intro h; rw [hn]; simp [NodeAttrs.mergeTask, setOr, h]
  · intro h; rw [hn]; simp [NodeAttrs.mergeTask, setOr_of_isSome _ _ h]
  · intro h; rw [hn]; simp [NodeAttrs.mergeTask, setOr, h]
  · intro h; rw [hn]; simp [NodeAttrs.mergeTask, setOr_of_isSome _ _ h]
  · intro h; rw [hn]; simp [NodeAttrs.mergeTask, setOr, h]
  · intro h; rw [hn]; simp [NodeAttrs.mergeTask, setOr_of_isSome _ _ h]
  · intro h; rw [hn]; simp [NodeAttrs.mergeTask, setOr, h]

/-- The stored node the sentinel patch witness starts from. -/
def attrsC6 : NodeAttrs := { attrs0 "u" 3 "keepname" 1 with tags := some ["x"], notes := some ["k"] }

/-- The one-node store for the sentinel patch witness. -/
def gC6 : Graph := Graph.mk [(3, attrsC6)]

/-- The sentinel-named update the patch witness applies. -/
def taskC6 : Task :=
  Task.mk "v" 3 "_existing_node" 9 (some true) none none (some ["u1"]) none none none

/-- Witness for C6 at a concrete store, the untouched other id being 9. -/
theorem create_task_existing_node_patch_witness :
    createId gC6 taskC6 = some taskC6.task_id
    ∧ (createState gC6 taskC6).find 9 = gC6.find 9
    ∧ (nodeAfterCreate gC6 taskC6).map NodeAttrs.kind = some attrsC6.kind
    ∧ (nodeAfterCreate gC6 taskC6).map NodeAttrs.name = some attrsC6.name
    ∧ (nodeAfterCreate gC6 taskC6).map NodeAttrs.user_id = some taskC6.user_id
    ∧ (nodeAfterCreate gC6 taskC6).map NodeAttrs.task_id = some taskC6.task_id
    ∧ (nodeAfterCreate gC6 taskC6).map NodeAttrs.importance = some taskC6.importance
    ∧ (taskC6.completed.isSome → (nodeAfterCreate gC6 taskC6).map NodeAttrs.completed = some taskC6.completed)
    ∧ (taskC6.completed = none → (nodeAfterCreate gC6 taskC6).map NodeAttrs.completed = some attrsC6.completed)
    ∧ (taskC6.due.isSome → (nodeAfterCreate gC6 taskC6).map NodeAttrs.due = some taskC6.due)
    ∧ (taskC6.due = none → (nodeAfterCreate gC6 taskC6).map NodeAttrs.due = some attrsC6.due)
    ∧ (taskC6.tags.isSome → (nodeAfterCreate gC6 taskC6).map NodeAttrs.tags = some taskC6.tags)
    ∧ (taskC6.tags = none → (nodeAfterCreate gC6 taskC6).map NodeAttrs.tags = some attrsC6.tags)
    ∧ (taskC6.urls.isSome → (nodeAfterCreate gC6 taskC6).map NodeAttrs.urls = some taskC6.urls)
    ∧ (taskC6.urls = none → (nodeAfterCreate gC6 taskC6).map NodeAttrs.urls = some attrsC6.urls)
    ∧ (taskC6.users.isSome → (nodeAfterCreate gC6 taskC6).map NodeAttrs.users = some taskC6.users)
    ∧ (taskC6.users = none → (nodeAfterCreate gC6 taskC6).map NodeAttrs.users = some attrsC6.users)
    ∧ (taskC6.notes.isSome → (nodeAfterCreate gC6 taskC6).map NodeAttrs.notes = some taskC6.notes)
    ∧ (taskC6.notes = none → (nodeAfterCreate gC6 taskC6).map NodeAttrs.notes = some attrsC6.notes)
    ∧ (taskC6.time_logs.isSome → (nodeAfterCreate gC6 taskC6).map NodeAttrs.time_logs = some taskC6.time_logs)
    ∧ (taskC6.time_logs = none → (nodeAfterCreate gC6 taskC6).map NodeAttrs.time_logs = some attrsC6.time_logs) :=
  create_task_existing_node_patch gC6 taskC6 attrsC6 9 rfl (by decide) rfl
    (by decide)

/-! Note indexing and absent set fields. -/

/-- A stored task with two notes for the note-operations witness. -/
def attrsC9 : NodeAttrs := { attrs0 "u" 0 "n" 1 with notes := some ["a", "b"] }

/-- The one-node store for the note-operations witness. -/
def gC9 : Graph := Graph.mk [(0, attrsC9)]

/-- C9: the note operations never reach their index logic: both load the
task first and the load raises the positional-construction type error for
every present node, before any bounds check, so no in-range overwrite or
removal and no out-of-range write-back ever happens and the store is
unchanged, for every index. -/
theorem note_ops_raise (g : Graph) (id : Int) (a : NodeAttrs)
    (notes : List String) (note_id : Int) (note : String)
    (hfind : g.find id = some a) (hnotes : a.notes = some notes) :
    update_note g id note_id note = Except.error PyErr.typeError
    ∧ remove_note g id note_id = Except.error PyErr.typeError
    ∧ opState g (update_note g id note_id note) = g
    ∧ opState g (remove_note g id note_id) = g := by
  have h1 : update_note g id note_id note = Except.error PyErr.typeError := by
    simp [update_note, get_task_from_graph, hfind]
  have h2 : remove_note g id note_id = Except.error PyErr.typeError := by
    simp [remove_note, get_task_from_graph, hfind]
  exact ⟨h1, h2, by simp [opState, h1], by simp [opState, h2]⟩

/-- Witness for C9 at an in-range index of a stored two-note list. -/
theorem note_ops_raise_witness :
    update_note gC9 0 0 "z" = Except.error PyErr.typeError
    ∧ remove_note gC9 0 0 = Except.error PyErr.typeError
    ∧ opState gC9 (update_note gC9 0 0 "z") = gC9
    ∧ opState gC9 (remove_note gC9 0 0) = gC9 :=
  note_ops_raise gC9 0 attrsC9 ["a", "b"] 0 "z" rfl rfl

/-- C10: for every stored task whose tags field is absent, add_tag and
remove_tag raise a type error before any write — already at the load of the
task, and past the load the iteration over the absent field would raise
too, so the absent field is never treated as an empty set — and likewise
for the url operations when urls is absent and the user operations when
users is absent; the store is unchanged in every case. -/
theorem absent_set_field_ops_raise (g : Graph) (id : Int) (a : NodeAttrs)
    (v : String) (hfind : g.find id = some a) :
    (a.tags = none → add_tag g id v = Except.error PyErr.typeError
      ∧ remove_tag g id v = Except.error PyErr.typeError
      ∧ opState g (add_tag g id v) = g ∧ opState g (remove_tag g id v) = g)
    ∧ (a.urls = none → add_url g id v = Except.error PyErr.typeError
      ∧ remove_url g id v = Except.error PyErr.typeError
      ∧ opState g (add_url g id v) = g ∧ opState g (remove_url g id v) = g)
    ∧ (a.users = none → add_user g id v = Except.error PyErr.typeError
      ∧ remove_user g id v = Except.error PyErr.typeError
      ∧ opState g (add_user g id v) = g ∧ opState g (remove_user g id v) = g) := by
  refine ⟨?_, ?_, ?_⟩ <;> intro h <;> refine ⟨?_, ?_, ?_, ?_⟩ <;>
    simp [add_tag, remove_tag, add_url, remove_url, add_user, remove_user,
      get_task_from_graph, hfind, NodeAttrs.toTask, h, opState]

/-- A stored task with none of the set-semantics fields present. -/
def gC10 : Graph := Graph.mk [(2, attrs0 "u" 2 "n" 1)]

/-- Witness for C10 at a concrete store. -/
theorem absent_set_field_ops_raise_witness :
    (add_tag gC10 2 "x" = Except.error PyErr.typeError
      ∧ remove_tag gC10 2 "x" = Except.error PyErr.typeError
      ∧ opState gC10 (add_tag gC10 2 "x") = gC10
      ∧ opState gC10 (remove_tag gC10 2 "x") = gC10)
    ∧ (add_url gC10 2 "x" = Except.error PyErr.typeError
      ∧ remove_url gC10 2 "x" = Except.error PyErr.typeError
      ∧ opState gC10 (add_url gC10 2 "x") = gC10
      ∧ opState gC10 (remove_url gC10 2 "x") = gC10)
    ∧ (add_user gC10 2 "x" = Except.error PyErr.typeError
      ∧ remove_user gC10 2 "x" = Except.error PyErr.typeError
      ∧ opState gC10 (add_user gC10 2 "x") = gC10
      ∧ opState gC10 (remove_user gC10 2 "x") = gC10) := by
  have h := absent_set_field_ops_raise gC10 2 (attrs0 "u" 2 "n" 1) "x" rfl
  exact ⟨h.1 rfl, h.2.1 rfl, h.2.2 rfl⟩

/-! The listing pipeline: filter semantics. -/

/-- A successful search step passes the candidate list through unchanged. -/
theorem searchStep_ok (search : Option String) (ids l : List Int)
    (h : searchStep search ids = Except.ok l) : l = ids := by
  cases search with
  | none => simpa [searchStep] using h.symm
  | some s =>
    by_cases hs : s = ""
    · simp [searchStep, hs] at h
      exact h.symm
    · cases ids with
      | nil => simp [searchStep, hs] at h; exact h
      | cons i rest => simp [searchStep, hs] at h

/-- Membership in the result of a successful fallible comprehension. -/
theorem pyFilter_ok_mem (p : Int → Except PyErr Bool) (l : List Int)
    (r : List Int) (x : Int) (h : pyFilter p l = Except.ok r) :
    x ∈ r ↔ x ∈ l ∧ p x = Except.ok true := by
  induction l generalizing r with
  | nil =>
    simp [pyFilter] at h
    subst h
    simp
  | cons id rest ih =>
    unfold pyFilter at h
    cases hp : p id with
    | error e => rw [hp] at h; simp at h
    | ok b =>
      rw [hp] at h
      cases hr : pyFilter p rest with
      | error e => rw [hr] at h; simp at h
      | ok r' =>
        rw [hr] at h
        simp only [Except.ok.injEq] at h
        subst h
        cases b with
        | true =>
          rw [if_pos rfl]
          simp only [List.mem_cons]
          rw [ih r' hr]
          constructor
          · rintro (hx | ⟨hx, hpx⟩)
            · subst hx
              exact ⟨Or.inl rfl, hp⟩
            · exact ⟨Or.inr hx, hpx⟩
          · rintro ⟨hx | hx, hpx⟩
            · exact Or.inl hx
            · exact Or.inr ⟨hx, hpx⟩
        | false =>
          rw [if_neg (by simp)]
          rw [ih r' hr]
          simp only [List.mem_cons]
          constructor
          · rintro ⟨hx, hpx⟩
            exact ⟨Or.inr hx, hpx⟩
          · rintro ⟨hx | hx, hpx⟩
            · subst hx
              rw [hp] at hpx
              simp at hpx
            · exact ⟨hx, hpx⟩

/-- Membership in the result of one successful intersection dimension. -/
theorem filterDim_ok_mem (g : Graph) (proj : NodeAttrs → Option (List String))
    (req : Option (List String)) (l r : List Int) (x : Int)
    (h : filterDim g proj req l = Except.ok r) :
    x ∈ r ↔ x ∈ l ∧ (∀ vs, req = some vs → vs ≠ [] →
      passFilter g proj vs x = Except.ok true) := by
  cases req with
  | none =>
    simp [filterDim] at h
    subst h
    simp
  | some vs =>
    by_cases hvs : vs = []
    · subst hvs
      simp [filterDim] at h
      subst h
      simp
    · simp only [filterDim, if_neg hvs] at h
      rw [pyFilter_ok_mem _ _ _ x h]
      constructor
      · rintro ⟨hx, hpx⟩
        exact ⟨hx, fun vs' hvs' hne => by
          injection hvs' with hv
          subst hv
          exact hpx⟩
      · rintro ⟨hx, hcond⟩
        exact ⟨hx, hcond vs rfl hvs⟩

/-- The membership test of an intersection step succeeds with true exactly
when the node exists and its stored field shares a member with the request. -/
theorem passFilter_true_iff (g : Graph)
    (proj : NodeAttrs → Option (List String)) (vs : List String) (x : Int) :
    passFilter g proj vs x = Except.ok true
      ↔ ∃ a, g.find x = some a ∧ ∃ y ∈ (proj a).getD [], y ∈ vs := by
  unfold passFilter
  cases hf : g.find x with
  | none => simp
  | some a =>
    simp only [Except.ok.injEq]
    rw [List.any_eq_true]
    constructor
    · rintro ⟨y, hy, hc⟩
      exact ⟨a, rfl, y, hy, by simpa using hc⟩
    · rintro ⟨a', ha', y, hy, hv⟩
      injection ha' with ha'
      subst ha'
      exact ⟨y, hy, by simpa using hv⟩

/-- The conditional filter clause of a dimension coincides with the
dimension-passing predicate. -/
theorem passesDim_iff_cond (g : Graph)
    (proj : NodeAttrs → Option (List String)) (req : Option (List String))
    (x : Int) :
    (∀ vs, req = some vs → vs ≠ [] → passFilter g proj vs x = Except.ok true)
      ↔ passesDim g proj req x := by
  unfold passesDim
  constructor
  · intro h vs hvs hne
    exact (passFilter_true_iff g proj vs x).mp (h vs hvs hne)
  · intro h vs hvs hne
    exact (passFilter_true_iff g proj vs x).mpr (h vs hvs hne)

/-- C7: for every call of the listing pipeline with a non-empty tags
requirement that returns a result, a candidate is kept exactly when it came
from the sort step, its stored tag set shares at least one member with the
requested set, and it passes the url and user dimensions likewise; the
dimensions therefore compose as a conjunction, each non-empty dimension
using one-common-member semantics. -/
theorem list_tasks_tag_or_and_dimension_and
    (sortFn : Graph → String → Nat → Bool → Bool → List Int)
    (g : Graph) (sort_by : String) (limit : Nat) (ascending : Bool)
    (only_leaves : Bool) (search : Option String) (ts : List String)
    (urls : Option (List String)) (users : Option (List String))
    (ids : List Int) (x : Int) (hts : ts ≠ [])
    (hok : list_task_ids sortFn g sort_by limit ascending only_leaves search (some ts) urls users = Except.ok ids) :
    x ∈ ids ↔ (x ∈ sortFn g sort_by limit ascending only_leaves
      ∧ passesDim g (fun a => a.tags) (some ts) x
      ∧ passesDim g (fun a => a.urls) urls x
      ∧ passesDim g (fun a => a.users) users x) := by
  unfold list_task_ids at hok
  cases h1 : searchStep search (sortFn g sort_by limit ascending only_leaves) with
  | error e => rw [h1] at hok; simp [bind, Except.bind] at hok
  | ok l1 =>
    rw [h1] at hok
    simp only [bind, Except.bind] at hok
    cases h2 : filterDim g (fun a => a.tags) (some ts) l1 with
    | error e => rw [h2] at hok; simp at hok
    | ok l2 =>
      rw [h2] at hok
      simp only [] at hok
      cases h3 : filterDim g (fun a => a.urls) urls l2 with
      | error e => rw [h3] at hok; simp at hok
      | ok l3 =>
        rw [h3] at hok
        simp only [] at hok
        have hl1 : l1 = sortFn g sort_by limit ascending only_leaves :=
          searchStep_ok _ _ _ h1
        rw [filterDim_ok_mem g (fun a => a.users) users l3 ids x hok,
          filterDim_ok_mem g (fun a => a.urls) urls l2 l3 x h3,
          filterDim_ok_mem g (fun a => a.tags) (some ts) l1 l2 x h2,
          passesDim_iff_cond g (fun a => a.tags) (some ts) x,
          passesDim_iff_cond g (fun a => a.urls) urls x,
          passesDim_iff_cond g (fun a => a.users) users x, hl1]
        tauto

/-- The sort collaborator used by the listing witnesses. -/
def sortC7 : Graph → String → Nat → Bool → Bool → List Int :=
  fun _ _ _ _ _ => [0, 5]

/-- A two-node store whose task 0 carries tags a and b and task 5 tag c. -/
def gC7 : Graph := Graph.mk [(0, { attrs0 "u" 0 "alpha" 1 with tags := some ["a", "b"] }), (5, { attrs0 "u" 5 "beta" 2 with tags := some ["c"] })]

/-- Witness for C7: requesting tags b and z keeps task 0 and drops task 5. -/
theorem list_tasks_tag_or_and_dimension_and_witness :
    (0 : Int) ∈ [(0 : Int)] ↔ ((0 : Int) ∈ sortC7 gC7 "importance" 10 false false
      ∧ passesDim gC7 (fun a => a.tags) (some ["b", "z"]) 0
      ∧ passesDim gC7 (fun a => a.urls) none 0
      ∧ passesDim gC7 (fun a => a.users) none 0) :=
  list_tasks_tag_or_and_dimension_and sortC7 gC7 "importance" 10 false false
    none ["b", "z"] none none [0] 0 (by decide) rfl

/-- C8: whenever the search argument is present and non-empty and the sort
step yields at least one candidate, list_tasks raises a type error: the
compiled pattern object itself is invoked on the first candidate name, and a
pattern object is not callable, so no filtering by the pattern ever runs. -/
theorem list_tasks_nonempty_search_raises
    (sortFn : Graph → String → Nat → Bool → Bool → List Int) (g : Graph)
    (sort_by : String) (limit : Nat) (ascending : Bool) (only_leaves : Bool)
    (s : String) (tags : Option (List String)) (urls : Option (List String))
    (users : Option (List String)) (hs : s ≠ "")
    (hne : sortFn g sort_by limit ascending only_leaves ≠ []) :
    list_tasks sortFn g sort_by limit ascending only_leaves (some s) tags urls
      users = Except.error PyErr.typeError := by
  unfold list_tasks list_task_ids
  have h1 : searchStep (some s) (sortFn g sort_by limit ascending only_leaves)
      = Except.error PyErr.typeError := by
    cases hids : sortFn g sort_by limit ascending only_leaves with
    | nil => exact absurd hids hne
    | cons i rest => simp [searchStep, hs]
  rw [h1]
  simp [bind, Except.bind]

/-- Witness for C8 at a concrete store and sort collaborator. -/
theorem list_tasks_nonempty_search_raises_witness :
    list_tasks sortC7 gC7 "importance" 10 false false (some "a") none none
      none = Except.error PyErr.typeError :=
  list_tasks_nonempty_search_raises sortC7 gC7 "importance" 10 false false
    "a" none none none (by decide) (by decide)

end Whatnext
